import Mathlib

/-!
Verification of the RightOrRude deliberation protocol (src/app.py).

The application sends a scenario to a language model once per persona,
validates each reply through `parse_response`, builds a judge prompt from
the collected opinions, validates the judge reply, and renders the result.

The embedding below mirrors `src/app.py`:
* `JValue` models the values produced by the standard JSON decoder
  (`json.loads`).  The decoder itself is external library code, so the
  functions that call it receive it as a parameter
  `json_loads : String → Except String JValue`; `Except.error e` models a
  raised `JSONDecodeError` with message `e`.  A `JValue.obj` models the
  decoded dictionary: its association list is keyed by the dictionary's
  (unique) keys, looked up with `List.lookup`.  `JValue.bool` is kept as a
  separate constructor, and — exactly as in the source language, where
  `bool` is a subtype of `int` — the `isinstance(·, int)` test
  (`isPyInt`) accepts it, with `True = 1` and `False = 0` (`asPyInt`).
* `parse_response` mirrors `parse_response` (app.py lines 82-102).
* `personas`, `persona_prompt`, `runPersonaStep`, `runPersonaPhase`
  mirror the persona dictionary and the fan-out loop (lines 73-148); the
  model gateway (`model.generate_content` followed by `.text.strip()`)
  is an external collaborator modelled as
  `gateway : String → Except String String`, where `Except.error e`
  models a raised exception with message `e` and `Except.ok t` the raw
  reply text (the source strips it before parsing, hence `String.trim`).
* `judge_prompt`, `runJudgePhase` mirror the judge phase (lines 151-191).
* `handleSubmit` mirrors the button handler's precondition checks and
  phase sequencing (lines 104-113).
-/

/-- A decoded JSON value as produced by the standard JSON decoder of the
source language: `null`, booleans, integers, non-integer numbers
(floats, carried here as rationals — only their type tag matters to the
validator), strings, arrays, and objects (dictionaries, represented as
association lists with unique keys). -/
inductive JValue where
  | null : JValue
  | bool : Bool → JValue
  | int : Int → JValue
  | float : Rat → JValue
  | str : String → JValue
  | arr : List JValue → JValue
  | obj : List (String × JValue) → JValue

/-- The five valid verdict symbols (app.py line 87). -/
def valid_verdicts : List String := ["NTA", "YTA", "ESH", "NAH", "INFO"]

/-- The `isinstance(x, int)` test of the source language: `True` for
integers AND for booleans (bool is a subtype of int). -/
def isPyInt : JValue → Bool
  | .int _ => true
  | .bool _ => true
  | _ => false

/-- The integer value of a JSON value that passes `isPyInt`
(`True` counts as 1 and `False` as 0, as in the source language). -/
def asPyInt : JValue → Int
  | .int n => n
  | .bool b => if b then 1 else 0
  | _ => 0

/-- The structural check of app.py lines 91-94: the decoded value is a
dictionary, `verdict` is a string among the five valid symbols, `score`
is an integer (in the `isinstance` sense), `explanation` is a string. -/
def matchesContract : JValue → Bool
  | .obj kvs =>
      (match kvs.lookup "verdict" with
        | some (.str v) => valid_verdicts.contains v
        | _ => false)
      && (match kvs.lookup "score" with
        | some sv => isPyInt sv
        | _ => false)
      && (match kvs.lookup "explanation" with
        | some (.str _) => true
        | _ => false)
  | _ => false

/-- The `verdict` field of a decoded dictionary (meaningful when
`matchesContract` holds). -/
def verdictOf : JValue → String
  | .obj kvs =>
      match kvs.lookup "verdict" with
      | some (.str v) => v
      | _ => "Error"
  | _ => "Error"

/-- The `score` field of a decoded dictionary (meaningful when
`matchesContract` holds). -/
def scoreOf : JValue → Int
  | .obj kvs =>
      match kvs.lookup "score" with
      | some sv => asPyInt sv
      | _ => 0
  | _ => 0

/-- The `explanation` field of a decoded dictionary (meaningful when
`matchesContract` holds). -/
def explanationOf : JValue → String
  | .obj kvs =>
      match kvs.lookup "explanation" with
      | some (.str e) => e
      | _ => ""
  | _ => ""

/-- The diagnostic message of app.py line 101 (decode failure). -/
def decodeFailMsg (persona_name e response_text : String) : String :=
  "Failed to decode JSON response for " ++ persona_name ++ ": " ++ e ++
    "\nRaw Response:\n```\n" ++ response_text ++ "\n```"

/-- The diagnostic message of app.py line 99 (structural mismatch). -/
def formatMismatchMsg (persona_name response_text : String) : String :=
  "Parsed JSON for " ++ persona_name ++ " does not match expected format." ++
    "\nRaw Response:\n```\n" ++ response_text ++ "\n```"

/-- The function `parse_response` of app.py lines 82-102.  Returns the triple
`(verdict, score, explanation)`.  `json_loads` is the external JSON
decoder applied to `response_text`; failure of the decoder corresponds
to the `json.JSONDecodeError` branch. -/
def parse_response (json_loads : String → Except String JValue)
    (response_text : String) (persona_name : String) : String × Int × String :=
  match json_loads response_text with
  | .error e => ("Error", 50, decodeFailMsg persona_name e response_text)
  | .ok data =>
      if matchesContract data then
        (verdictOf data, max 0 (min 100 (scoreOf data)), explanationOf data)
      else
        ("Error", 50, formatMismatchMsg persona_name response_text)

-- Helper lemmas about `parse_response`.

theorem contains_verdictOf (data : JValue) (h : matchesContract data = true) :
    valid_verdicts.contains (verdictOf data) = true := by
  cases data with
  | obj kvs =>
      simp only [matchesContract, Bool.and_eq_true] at h
      obtain ⟨⟨h1, h2⟩, h3⟩ := h
      simp only [verdictOf]
      split at h1
      next v heq => exact h1
      next heq => simp at h1
  | null => simp [matchesContract] at h
  | bool b => simp [matchesContract] at h
  | int n => simp [matchesContract] at h
  | float q => simp [matchesContract] at h
  | str s => simp [matchesContract] at h
  | arr l => simp [matchesContract] at h

theorem decodeFailMsg_ne_empty (persona_name e response_text : String) :
    decodeFailMsg persona_name e response_text ≠ "" := by
  intro hEq
  have hlen := congrArg String.length hEq
  unfold decodeFailMsg at hlen
  simp only [String.length_append] at hlen
  have h1 : ("Failed to decode JSON response for " : String).length = 35 := rfl
  have h2 : ("" : String).length = 0 := rfl
  rw [h1, h2] at hlen
  omega

theorem formatMismatchMsg_ne_empty (persona_name response_text : String) :
    formatMismatchMsg persona_name response_text ≠ "" := by
  intro hEq
  have hlen := congrArg String.length hEq
  unfold formatMismatchMsg at hlen
  simp only [String.length_append] at hlen
  have h1 : ("Parsed JSON for " : String).length = 16 := rfl
  have h2 : ("" : String).length = 0 := rfl
  rw [h1, h2] at hlen
  omega

theorem parse_response_error_shape (json_loads : String → Except String JValue)
    (response_text persona_name : String)
    (h : (parse_response json_loads response_text persona_name).1 = "Error") :
    (parse_response json_loads response_text persona_name).2.1 = 50 ∧
      (parse_response json_loads response_text persona_name).2.2 ≠ "" := by
  unfold parse_response at h ⊢
  rcases hl : json_loads response_text with e | data
  · exact ⟨rfl, decodeFailMsg_ne_empty _ _ _⟩
  · rcases hm : matchesContract data with _ | _
    · constructor
      · simp [hm]
      · simp only [hm, Bool.false_eq_true, if_false]
        exact formatMismatchMsg_ne_empty _ _
    · exfalso
      rw [hl] at h
      simp [hm] at h
      have hc := contains_verdictOf data hm
      rw [h] at hc
      simp [valid_verdicts] at hc

/-- C1: for every integer s, `parse_response` applied to text that
decodes to a JSON dictionary whose `verdict` is one of the five valid
symbols, whose `score` is the integer s, and whose `explanation` is a
string, returns a result whose score equals `max 0 (min 100 s)`. -/
theorem parse_response_clamps_score (json_loads : String → Except String JValue)
    (rt pn : String) (kvs : List (String × JValue)) (v ex : String) (s : Int)
    (hload : json_loads rt = .ok (.obj kvs))
    (hv : kvs.lookup "verdict" = some (.str v))
    (hvv : v ∈ valid_verdicts)
    (hs : kvs.lookup "score" = some (.int s))
    (he : kvs.lookup "explanation" = some (.str ex)) :
    (parse_response json_loads rt pn).2.1 = max 0 (min 100 s) := by
  have hm : matchesContract (.obj kvs) = true := by
    simp only [matchesContract]
    rw [hv, hs, he]
    simp [isPyInt]
    exact hvv
  unfold parse_response
  rw [hload]
  simp only [if_pos hm]
  show max 0 (min 100 (scoreOf (.obj kvs))) = max 0 (min 100 s)
  simp only [scoreOf]
  rw [hs]
  rfl

/-- Witness for C1: a score of 150 is clamped to 100. -/
theorem parse_response_clamps_score_witness :
    (parse_response
      (fun _ => .ok (.obj [("verdict", JValue.str "YTA"), ("score", JValue.int 150),
        ("explanation", JValue.str "too much")]))
      "raw" "Model").2.1 = max 0 (min 100 150) :=
  parse_response_clamps_score _ "raw" "Model" _ "YTA" "too much" 150 rfl rfl
    (by decide) rfl rfl

theorem parse_response_decode_fail (json_loads : String → Except String JValue)
    (rt pn e : String) (he : json_loads rt = .error e) :
    parse_response json_loads rt pn = ("Error", 50, decodeFailMsg pn e rt) := by
  unfold parse_response
  rw [he]

theorem parse_response_mismatch (json_loads : String → Except String JValue)
    (rt pn : String) (d : JValue) (hd : json_loads rt = .ok d)
    (hm : matchesContract d = false) :
    parse_response json_loads rt pn = ("Error", 50, formatMismatchMsg pn rt) := by
  unfold parse_response
  rw [hd]
  simp [hm]

theorem parse_response_score_bounds (json_loads : String → Except String JValue)
    (rt pn : String) :
    0 ≤ (parse_response json_loads rt pn).2.1 ∧
      (parse_response json_loads rt pn).2.1 ≤ 100 := by
  unfold parse_response
  rcases json_loads rt with e | data
  · exact ⟨show (0:Int) ≤ 50 by decide, show (50:Int) ≤ 100 by decide⟩
  · rcases hm : matchesContract data with _ | _
    · simp only [hm, Bool.false_eq_true, if_false]
      exact ⟨show (0:Int) ≤ 50 by decide, show (50:Int) ≤ 100 by decide⟩
    · simp only [hm, if_true]
      exact ⟨le_max_left 0 _, max_le (by decide) (min_le_left 100 _)⟩

/-- C2 (amended): on every input, the score returned by `parse_response`
lies in [0,100]; and whenever the parse fails (the returned verdict is
the sentinel "Error"), the explanation is a nonempty placeholder.  (On a
successful parse the explanation is whatever string the reply carried,
which may be empty — see the counterexample.) -/
theorem parse_response_range_and_placeholder
    (json_loads : String → Except String JValue) (rt pn : String) :
    0 ≤ (parse_response json_loads rt pn).2.1 ∧
      (parse_response json_loads rt pn).2.1 ≤ 100 ∧
      ((parse_response json_loads rt pn).1 = "Error" →
        (parse_response json_loads rt pn).2.2 ≠ "") :=
  ⟨(parse_response_score_bounds json_loads rt pn).1,
   (parse_response_score_bounds json_loads rt pn).2,
   fun h => (parse_response_error_shape json_loads rt pn h).2⟩

/-- Witness for C2 (amended), at a decode failure. -/
theorem parse_response_range_and_placeholder_witness :
    0 ≤ (parse_response (fun _ => .error "boom") "not json" "Model").2.1 ∧
      (parse_response (fun _ => .error "boom") "not json" "Model").2.1 ≤ 100 ∧
      (parse_response (fun _ => .error "boom") "not json" "Model").2.2 ≠ "" :=
  ⟨(parse_response_range_and_placeholder (fun _ => .error "boom") "not json" "Model").1,
   (parse_response_range_and_placeholder (fun _ => .error "boom") "not json" "Model").2.1,
   (parse_response_range_and_placeholder (fun _ => .error "boom") "not json" "Model").2.2 rfl⟩

/-- C2 counterexample: a reply that passes every structural check but
carries the empty string as its explanation is accepted verbatim, so
the returned explanation IS empty — the claim "the explanation string
is never empty" fails on the success branch. -/
theorem empty_explanation_counterexample :
    parse_response
      (fun _ => .ok (.obj [("verdict", JValue.str "NTA"), ("score", JValue.int 10),
        ("explanation", JValue.str "")]))
      "raw" "Model" = ("NTA", 10, "") := by decide

/-- C3: if the decoded value is a dictionary whose `verdict` field is
present but is not one of the five valid symbols (whether a string
outside the enum or a non-string value), `parse_response` returns the
contract-error outcome — never a successful result carrying that
verdict. -/
theorem invalid_verdict_rejected (json_loads : String → Except String JValue)
    (rt pn : String) (kvs : List (String × JValue)) (jv : JValue)
    (hload : json_loads rt = .ok (.obj kvs))
    (hv : kvs.lookup "verdict" = some jv)
    (hnv : ∀ v : String, jv = .str v → v ∉ valid_verdicts) :
    parse_response json_loads rt pn = ("Error", 50, formatMismatchMsg pn rt) := by
  apply parse_response_mismatch json_loads rt pn _ hload
  simp only [matchesContract]
  rw [hv]
  cases jv with
  | str v =>
      have hnm := hnv v rfl
      have hc : valid_verdicts.contains v = false := by
        rcases hcv : valid_verdicts.contains v with _ | _
        · rfl
        · exact absurd (List.mem_of_elem_eq_true hcv) hnm
      simp [hc]
      exact fun hmem _ => absurd hmem hnm
  | null => simp
  | bool b => simp
  | int n => simp
  | float q => simp
  | arr l => simp
  | obj o => simp

/-- Witness for C3: verdict "MAYBE" is rejected. -/
theorem invalid_verdict_rejected_witness :
    parse_response
      (fun _ => .ok (.obj [("verdict", JValue.str "MAYBE"), ("score", JValue.int 10),
        ("explanation", JValue.str "e")]))
      "raw" "Model" = ("Error", 50, formatMismatchMsg "Model" "raw") :=
  invalid_verdict_rejected _ "raw" "Model" _ (JValue.str "MAYBE") rfl rfl
    (by intro v h; injection h with h; subst h; decide)

/-- C4: whenever decoding of the input text fails (e.g. the text
`not json`), or decoding succeeds but the structural check fails (wrong
type, missing field, invalid enum value), `parse_response` returns the
contract-error outcome and its diagnostic explanation contains the
original raw input text verbatim. -/
theorem failure_embeds_raw_text (json_loads : String → Except String JValue)
    (rt pn : String)
    (h : (∃ e, json_loads rt = .error e) ∨
      (∃ d, json_loads rt = .ok d ∧ matchesContract d = false)) :
    (parse_response json_loads rt pn).1 = "Error" ∧
      (parse_response json_loads rt pn).2.1 = 50 ∧
      ∃ pre post, (parse_response json_loads rt pn).2.2 = pre ++ rt ++ post := by
  rcases h with ⟨e, he⟩ | ⟨d, hd, hm⟩
  · rw [parse_response_decode_fail json_loads rt pn e he]
    exact ⟨rfl, rfl,
      "Failed to decode JSON response for " ++ pn ++ ": " ++ e ++ "\nRaw Response:\n```\n",
      "\n```", rfl⟩
  · rw [parse_response_mismatch json_loads rt pn d hd hm]
    exact ⟨rfl, rfl,
      "Parsed JSON for " ++ pn ++ " does not match expected format." ++ "\nRaw Response:\n```\n",
      "\n```", rfl⟩

/-- Witness for C4: the text `not json` fails to decode and the
diagnostic explanation embeds it verbatim. -/
theorem failure_embeds_raw_text_witness :
    (parse_response (fun _ => .error "Expecting value") "not json" "Model").1 = "Error" ∧
      (parse_response (fun _ => .error "Expecting value") "not json" "Model").2.1 = 50 ∧
      ∃ pre post,
        (parse_response (fun _ => .error "Expecting value") "not json" "Model").2.2 =
          pre ++ "not json" ++ post :=
  failure_embeds_raw_text (fun _ => .error "Expecting value") "not json" "Model"
    (Or.inl ⟨"Expecting value", rfl⟩)

/-- C5: the object with `verdict` "YTA" and `score` 90 but no
`explanation` field is rejected with the contract-error outcome, while
the canonical object (NTA, 10, "fine") round-trips exactly. -/
theorem canonical_examples :
    parse_response
        (fun _ => .ok (.obj [("verdict", JValue.str "YTA"), ("score", JValue.int 90)]))
        "\x7b\"verdict\":\"YTA\",\"score\":90\x7d" "Model" =
      ("Error", 50,
        formatMismatchMsg "Model" "\x7b\"verdict\":\"YTA\",\"score\":90\x7d") ∧
    parse_response
        (fun _ => .ok (.obj [("verdict", JValue.str "NTA"), ("score", JValue.int 10),
          ("explanation", JValue.str "fine")]))
        "\x7b\"verdict\":\"NTA\",\"score\":10,\"explanation\":\"fine\"\x7d" "Model" =
      ("NTA", 10, "fine") := by
  constructor
  · exact parse_response_mismatch _ _ "Model" _ rfl (by decide)
  · decide

/-- C9: a reply whose `score` field is present but is not an integer in
the source language's `isinstance` sense (a float, a string numeral,
null, a list, or a nested object — booleans are integers there, see the
boolean-score theorem) is rejected with the contract-error outcome,
never coerced, even when verdict and explanation are valid. -/
theorem non_integer_score_rejected (json_loads : String → Except String JValue)
    (rt pn : String) (kvs : List (String × JValue)) (v ex : String) (jv : JValue)
    (hload : json_loads rt = .ok (.obj kvs))
    (hv : kvs.lookup "verdict" = some (.str v))
    (hvv : v ∈ valid_verdicts)
    (hs : kvs.lookup "score" = some jv)
    (hni : isPyInt jv = false)
    (he : kvs.lookup "explanation" = some (.str ex)) :
    parse_response json_loads rt pn = ("Error", 50, formatMismatchMsg pn rt) := by
  apply parse_response_mismatch json_loads rt pn _ hload
  simp only [matchesContract]
  rw [hv, hs, he]
  simp [hni]

/-- Witness for C9: a float score 90.5 is rejected. -/
theorem non_integer_score_rejected_witness :
    parse_response
      (fun _ => .ok (.obj [("verdict", JValue.str "NTA"), ("score", JValue.float 90.5),
        ("explanation", JValue.str "fine")]))
      "raw" "Model" = ("Error", 50, formatMismatchMsg "Model" "raw") :=
  non_integer_score_rejected _ "raw" "Model" _ "NTA" "fine" (JValue.float 90.5)
    rfl rfl (by decide) rfl rfl rfl

/-- C10: a reply whose `score` field is a JSON boolean is ACCEPTED —
the `isinstance(·, int)` check of the source language counts booleans
as integers — and the returned score is 1 for true and 0 for false. -/
theorem bool_score_accepted (json_loads : String → Except String JValue)
    (rt pn : String) (kvs : List (String × JValue)) (v ex : String) (b : Bool)
    (hload : json_loads rt = .ok (.obj kvs))
    (hv : kvs.lookup "verdict" = some (.str v))
    (hvv : v ∈ valid_verdicts)
    (hs : kvs.lookup "score" = some (.bool b))
    (he : kvs.lookup "explanation" = some (.str ex)) :
    parse_response json_loads rt pn = (v, if b then 1 else 0, ex) := by
  have hm : matchesContract (.obj kvs) = true := by
    simp only [matchesContract]
    rw [hv, hs, he]
    simp [isPyInt]
    exact hvv
  unfold parse_response
  rw [hload]
  simp only [hm, if_true]
  simp only [verdictOf, scoreOf, explanationOf]
  rw [hv, hs, he]
  cases b <;> simp [asPyInt]

/-- Witness for C10: a score of `true` yields the successful result
with score 1. -/
theorem bool_score_accepted_witness :
    parse_response
      (fun _ => .ok (.obj [("verdict", JValue.str "NTA"), ("score", JValue.bool true),
        ("explanation", JValue.str "ok")]))
      "raw" "Model" = ("NTA", 1, "ok") :=
  bool_score_accepted _ "raw" "Model" _ "NTA" "ok" true rfl rfl (by decide) rfl rfl

/-- One collected persona opinion (the dict appended at app.py
lines 135-140 and 143-148). -/
structure PersonaOpinion where
  name : String
  verdict : String
  score : Int
  explanation : String
  deriving Repr, DecidableEq

/-- The persona registry of app.py lines 73-79, in source order (the
source-language dictionary preserves insertion order). -/
def personas : List (String × String) :=
  [("Brittany", "Analyze this scenario from the perspective of a sassy GenZ chick. Your language should be informal, use some slang, and focus on modern social dynamics and \x27vibes\x27. Be brutally honest but maybe with a hint of humor."),
   ("Chad", "Analyze this scenario from the perspective of a \x27based gym bro\x27. Your judgment should be direct, perhaps a bit blunt, and focus on personal accountability and strength. Use simple, straightforward language."),
   ("Mom", "Analyze this scenario from the perspective of a wise and experienced parent. Focus on empathy, communication, and the long-term consequences of actions on relationships and personal growth. Offer compassionate but firm advice."),
   ("Prof. Dr. Socrates", "Analyze this scenario from the perspective of a psychology professor. Focus on underlying motivations, cognitive biases, interpersonal dynamics, and potential psychological impacts. Use academic but accessible language."),
   ("Mrs. Jackson", "Analyze this scenario from the perspective of a teacher. Focus on fairness, rules, consequences, and what could be learned from the situation. Provide guidance as if explaining a lesson.")]

/-- The persona prompt template of app.py lines 117-130 (an f-string
embedding the persona name, its instruction and the scenario). -/
def persona_prompt (scenario persona_name persona_instruction : String) : String :=
  "\n                Analyze the following scenario based on the AITA (Am I The Asshole?) framework.\n                Adopt the persona of a \x27" ++
    persona_name ++ "\x27 with the following instructions: " ++ persona_instruction ++
    "\n\n                Respond ONLY with a valid JSON object containing the following keys:\n                - \"verdict\": A string, one of \"NTA\", \"YTA\", \"ESH\", \"NAH\", \"INFO\".\n                - \"score\": An integer between 0 and 100 (0=NTA, 100=YTA).\n                - \"explanation\": A string explaining the reasoning for the verdict and score from your persona\x27s viewpoint. Keep this explanation concise, ideally around two sentences. If the verdict is \"YTA\", the explanation should be significantly harsher and more direct in its criticism of the user\x27s actions from your persona\x27s viewpoint.\n\n                Ensure the output is nothing but the JSON object itself.\n\n                Scenario:\n                " ++
    scenario ++ "\n                "

/-- One iteration of the persona fan-out loop (app.py lines 116-148):
invoke the gateway on the persona prompt; on success strip the reply
and validate it with `parse_response`; on a raised exception record the
sentinel opinion with verdict "Error", score 50 and an explanation
embedding the failure reason. -/
def runPersonaStep (gateway : String → Except String String)
    (json_loads : String → Except String JValue) (scenario : String)
    (p : String × String) : PersonaOpinion :=
  match gateway (persona_prompt scenario p.1 p.2) with
  | .ok response =>
      let response_text := response.trim
      let r := parse_response json_loads response_text p.1
      { name := p.1, verdict := r.1, score := r.2.1, explanation := r.2.2 }
  | .error e =>
      { name := p.1, verdict := "Error", score := 50,
        explanation := "An error occurred: " ++ e }

/-- The whole persona fan-out loop: one opinion per persona, appended
in registry order. -/
def runPersonaPhase (gateway : String → Except String String)
    (json_loads : String → Except String JValue) (scenario : String) :
    List PersonaOpinion :=
  personas.map (runPersonaStep gateway json_loads scenario)

/-- The part of the judge prompt before the scenario (app.py
lines 151-158). -/
def judgeHeaderPre : String :=
  "\n        You are the final judge in an AITA (Am I The Asshole?) scenario.\n        You have received the following scenario and several opinions from different reviewers.\n        Your task is to synthesize these opinions, the original scenario, and provide a final, objective verdict, score, and explanation.\n        Do not just average the results; provide a considered judgment based on the evidence and arguments presented by the reviewers.\n        If reviewers disagree, analyze the points of disagreement and determine which perspective is more convincing or applicable.\n\n        Original Scenario:\n        "

/-- The part of the judge prompt between the scenario and the opinion
blocks (app.py lines 160-162). -/
def judgeHeaderPost : String := "\n\n        Reviewer Opinions:\n        "

/-- The fixed instructions appended after the opinion blocks (app.py
lines 169-177). -/
def judgeFooter : String :=
  "\n        Based on the above, provide your final judgment.\n        Respond ONLY with a valid JSON object containing the following keys:\n        - \"verdict\": A string, one of \"NTA\", \"YTA\", \"ESH\", \"NAH\", \"INFO\".\n        - \"score\": An integer between 0 and 100 (0=NTA, 100=YTA).\n        - \"explanation\": A string explaining your final reasoning, referencing the reviewer opinions where relevant. Your explanation should be objective and comprehensive.\n\n        Ensure the output is nothing but the JSON object itself.\n        "

/-- The text appended to the judge prompt for one opinion (app.py
lines 163-167). -/
def judgeOpinionBlock (r : PersonaOpinion) : String :=
  "\n--- " ++ r.name ++ " ---\n" ++ "Verdict: " ++ r.verdict ++ "\n" ++
    "Score: " ++ toString r.score ++ "\n" ++ "Explanation: " ++ r.explanation ++ "\n"

/-- The judge prompt of app.py lines 151-177: header with the scenario,
then one block per opinion accumulated in order, then the footer. -/
def judge_prompt (scenario : String) (persona_results : List PersonaOpinion) : String :=
  (persona_results.foldl (fun acc res => acc ++ judgeOpinionBlock res)
    (judgeHeaderPre ++ scenario ++ judgeHeaderPost)) ++ judgeFooter

/-- The judge phase (app.py lines 178-191): invoke the gateway once on
the judge prompt; on success strip and validate; on a raised exception
keep the initial sentinel verdict/score and record the failure reason. -/
def runJudgePhase (gateway : String → Except String String)
    (json_loads : String → Except String JValue) (scenario : String)
    (persona_results : List PersonaOpinion) : String × Int × String :=
  match gateway (judge_prompt scenario persona_results) with
  | .ok response => parse_response json_loads response.trim "Final Judge"
  | .error e =>
      ("Error", 50, "An error occurred while the judge was deliberating: " ++ e)

/-- The terminal state of one button press (app.py lines 104-113):
either one of the three precondition failures (API not configured,
model not initialized, empty scenario) or a full session holding the
ordered opinions and the final judgment. -/
inductive SubmitOutcome where
  | configError : SubmitOutcome
  | modelError : SubmitOutcome
  | emptyWarning : SubmitOutcome
  | session : List PersonaOpinion → String × Int × String → SubmitOutcome

/-- The button handler of app.py lines 104-113: the precondition
checks, then the persona phase followed by the judge phase.  The
source-language test `not scenario` is true exactly for the empty
string. -/
def handleSubmit (api_configured model_available : Bool) (scenario : String)
    (gateway : String → Except String String)
    (json_loads : String → Except String JValue) : SubmitOutcome :=
  if !api_configured then .configError
  else if !model_available then .modelError
  else if scenario = "" then .emptyWarning
  else
    let persona_results := runPersonaPhase gateway json_loads scenario
    .session persona_results (runJudgePhase gateway json_loads scenario persona_results)

-- Helper lemmas about the persona fan-out loop.

theorem an_error_msg_ne_empty (e : String) : "An error occurred: " ++ e ≠ "" := by
  intro hEq
  have hlen := congrArg String.length hEq
  simp only [String.length_append] at hlen
  have h1 : ("An error occurred: " : String).length = 19 := rfl
  have h2 : ("" : String).length = 0 := rfl
  rw [h1, h2] at hlen
  omega

theorem runPersonaStep_name (gateway : String → Except String String)
    (json_loads : String → Except String JValue) (scenario : String)
    (p : String × String) :
    (runPersonaStep gateway json_loads scenario p).name = p.1 := by
  unfold runPersonaStep
  rcases gateway (persona_prompt scenario p.1 p.2) with e | r
  · rfl
  · rfl

theorem runPersonaStep_error_shape (gateway : String → Except String String)
    (json_loads : String → Except String JValue) (scenario : String)
    (p : String × String)
    (h : (runPersonaStep gateway json_loads scenario p).verdict = "Error") :
    (runPersonaStep gateway json_loads scenario p).score = 50 ∧
      (runPersonaStep gateway json_loads scenario p).explanation ≠ "" := by
  unfold runPersonaStep at h ⊢
  rcases hg : gateway (persona_prompt scenario p.1 p.2) with e | r
  · exact ⟨rfl, an_error_msg_ne_empty e⟩
  · rw [hg] at h
    have h' : (parse_response json_loads r.trim p.1).1 = "Error" := h
    refine ⟨?_, ?_⟩
    · show (parse_response json_loads r.trim p.1).2.1 = 50
      exact (parse_response_error_shape json_loads r.trim p.1 h').1
    · show (parse_response json_loads r.trim p.1).2.2 ≠ ""
      exact (parse_response_error_shape json_loads r.trim p.1 h').2

theorem runPersonaPhase_get? (gateway : String → Except String String)
    (json_loads : String → Except String JValue) (scenario : String) (j : Nat) :
    (runPersonaPhase gateway json_loads scenario).get? j =
      (personas.get? j).map (runPersonaStep gateway json_loads scenario) := by
  simp [runPersonaPhase, List.get?_map]

/-- C6: if, for one persona index i, the gateway call or the validation
fails (the recorded verdict is the sentinel "Error") while every other
persona's step succeeds, the produced opinion list still has one entry
per persona, every entry carries its persona's name in registry order,
the entry at i is the sentinel (verdict "Error", score 50, nonempty
explanation; when the gateway itself raised e, the explanation embeds
that reason), and no other entry is a sentinel — no persona's failure
aborts the others. -/
theorem persona_isolation (gateway : String → Except String String)
    (json_loads : String → Except String JValue) (scenario : String) (i : Nat)
    (hi : i < personas.length)
    (hfail : (runPersonaStep gateway json_loads scenario (personas.get ⟨i, hi⟩)).verdict = "Error")
    (hok : ∀ j (hj : j < personas.length), j ≠ i →
      (runPersonaStep gateway json_loads scenario (personas.get ⟨j, hj⟩)).verdict ≠ "Error") :
    (runPersonaPhase gateway json_loads scenario).length = personas.length ∧
    (∀ j, ((runPersonaPhase gateway json_loads scenario).get? j).map PersonaOpinion.name =
      (personas.get? j).map Prod.fst) ∧
    (∀ r, (runPersonaPhase gateway json_loads scenario).get? i = some r →
      r.verdict = "Error" ∧ r.score = 50 ∧ r.explanation ≠ "") ∧
    (∀ j, j ≠ i → ∀ r, (runPersonaPhase gateway json_loads scenario).get? j = some r →
      r.verdict ≠ "Error") ∧
    (∀ p, personas.get? i = some p → ∀ e,
      gateway (persona_prompt scenario p.1 p.2) = .error e →
      ∀ r, (runPersonaPhase gateway json_loads scenario).get? i = some r →
        r.explanation = "An error occurred: " ++ e) := by
  have hpi : personas.get? i = some (personas.get ⟨i, hi⟩) := List.get?_eq_get hi
  refine ⟨?_, ?_, ?_, ?_, ?_⟩
  · simp [runPersonaPhase]
  · intro j
    rw [runPersonaPhase_get?]
    rcases personas.get? j with _ | p
    · rfl
    · simp [runPersonaStep_name]
  · intro r hr
    rw [runPersonaPhase_get?, hpi] at hr
    simp only [Option.map_some'] at hr
    injection hr with hr
    subst hr
    exact ⟨hfail, (runPersonaStep_error_shape _ _ _ _ hfail).1,
      (runPersonaStep_error_shape _ _ _ _ hfail).2⟩
  · intro j hne r hr
    rw [runPersonaPhase_get?] at hr
    rcases hpj : personas.get? j with _ | p
    · rw [hpj] at hr; simp at hr
    · rw [hpj] at hr
      simp only [Option.map_some'] at hr
      injection hr with hr
      subst hr
      obtain ⟨hj, hpe⟩ := List.get?_eq_some.mp hpj
      rw [← hpe]
      exact hok j hj hne
  · intro p hp e hge r hr
    rw [runPersonaPhase_get?, hpi] at hr
    simp only [Option.map_some'] at hr
    injection hr with hr
    subst hr
    rw [hpi] at hp
    injection hp with hp
    subst hp
    show (runPersonaStep gateway json_loads scenario (personas.get ⟨i, hi⟩)).explanation = _
    unfold runPersonaStep
    rw [hge]

/-- A gateway that raises exactly on the first registry persona's
prompt (used to instantiate the isolation theorem). -/
def failingGateway : String → Except String String :=
  fun prompt =>
    if prompt = persona_prompt "sc" (personas.getD 0 ("", "")).1 (personas.getD 0 ("", "")).2
    then .error "boom" else .ok "reply"

/-- A decoder that always yields a well-formed judgment object. -/
def okLoads : String → Except String JValue :=
  fun _ => .ok (.obj [("verdict", .str "NTA"), ("score", .int 1),
    ("explanation", .str "fine")])

set_option maxRecDepth 16384 in
/-- Witness for C6: persona "Brittany" (registry index 0) fails at the
gateway while the other four personas succeed. -/
theorem persona_isolation_witness :
    (runPersonaPhase failingGateway okLoads "sc").length = personas.length ∧
    (∀ j, ((runPersonaPhase failingGateway okLoads "sc").get? j).map PersonaOpinion.name =
      (personas.get? j).map Prod.fst) ∧
    (∀ r, (runPersonaPhase failingGateway okLoads "sc").get? 0 = some r →
      r.verdict = "Error" ∧ r.score = 50 ∧ r.explanation ≠ "") ∧
    (∀ j, j ≠ 0 → ∀ r, (runPersonaPhase failingGateway okLoads "sc").get? j = some r →
      r.verdict ≠ "Error") ∧
    (∀ p, personas.get? 0 = some p → ∀ e,
      failingGateway (persona_prompt "sc" p.1 p.2) = .error e →
      ∀ r, (runPersonaPhase failingGateway okLoads "sc").get? 0 = some r →
        r.explanation = "An error occurred: " ++ e) :=
  persona_isolation failingGateway okLoads "sc" 0 (by decide) (by decide)
    (by
      intro j hj hne
      have hj5 : j < 5 := by simpa [personas] using hj
      interval_cases j
      · exact absurd rfl hne
      · show (runPersonaStep failingGateway okLoads "sc"
          (personas.get ⟨1, by decide⟩)).verdict ≠ "Error"
        decide
      · show (runPersonaStep failingGateway okLoads "sc"
          (personas.get ⟨2, by decide⟩)).verdict ≠ "Error"
        decide
      · show (runPersonaStep failingGateway okLoads "sc"
          (personas.get ⟨3, by decide⟩)).verdict ≠ "Error"
        decide
      · show (runPersonaStep failingGateway okLoads "sc"
          (personas.get ⟨4, by decide⟩)).verdict ≠ "Error"
        decide)

/-- The concatenation of the opinion blocks of a list of opinions, in
order. -/
def joinBlocks : List PersonaOpinion → String
  | [] => ""
  | r :: rs => judgeOpinionBlock r ++ joinBlocks rs

theorem foldl_judgeBlocks (l : List PersonaOpinion) (acc : String) :
    l.foldl (fun acc res => acc ++ judgeOpinionBlock res) acc = acc ++ joinBlocks l := by
  induction l generalizing acc with
  | nil => simp [joinBlocks, String.append_empty]
  | cons r rs ih =>
      simp only [List.foldl_cons, joinBlocks]
      rw [ih, String.append_assoc]

theorem joinBlocks_split (l : List PersonaOpinion) (i : Nat) (hi : i < l.length) :
    joinBlocks l = joinBlocks (l.take i) ++
      (judgeOpinionBlock (l.get ⟨i, hi⟩) ++ joinBlocks (l.drop (i + 1))) := by
  induction l generalizing i with
  | nil => exact absurd hi (Nat.not_lt_zero i)
  | cons r rs ih =>
      cases i with
      | zero => simp [joinBlocks, String.empty_append]
      | succ n =>
          have hn : n < rs.length := by simpa using hi
          simp only [List.take_succ_cons, List.drop_succ_cons, List.get_cons_succ, joinBlocks]
          rw [ih n hn, String.append_assoc]

/-- C7: for every scenario, every opinion list and every index i, the
judge prompt contains a contiguous block carrying opinion i's persona
name, verdict, score and explanation, and the text before that block is
exactly the judge header — which embeds the scenario — followed by the
blocks of the earlier opinions: all four fields of every opinion appear,
in the original sequence order, after the scenario text. -/
theorem judge_prompt_contains_opinions (scenario : String)
    (rs : List PersonaOpinion) (i : Nat) (hi : i < rs.length) :
    ∃ pre post,
      judge_prompt scenario rs =
        pre ++ ("\n--- " ++ (rs.get ⟨i, hi⟩).name ++ " ---\n" ++ "Verdict: " ++
          (rs.get ⟨i, hi⟩).verdict ++ "\n" ++ "Score: " ++
          toString (rs.get ⟨i, hi⟩).score ++ "\n" ++ "Explanation: " ++
          (rs.get ⟨i, hi⟩).explanation ++ "\n") ++ post ∧
      pre = judgeHeaderPre ++ scenario ++ judgeHeaderPost ++ joinBlocks (rs.take i) := by
  refine ⟨judgeHeaderPre ++ scenario ++ judgeHeaderPost ++ joinBlocks (rs.take i),
    joinBlocks (rs.drop (i + 1)) ++ judgeFooter, ?_, rfl⟩
  unfold judge_prompt
  rw [foldl_judgeBlocks, joinBlocks_split rs i hi]
  show _ = _ ++ judgeOpinionBlock (rs.get ⟨i, hi⟩) ++ _
  simp only [String.append_assoc]

/-- Witness for C7: a two-opinion sequence with known values; the block
of the second opinion appears after the header and the first block. -/
theorem judge_prompt_contains_opinions_witness :
    ∃ pre post,
      judge_prompt "sc" [⟨"Alice", "NTA", 10, "ea"⟩, ⟨"Bob", "YTA", 90, "eb"⟩] =
        pre ++ ("\n--- " ++ "Bob" ++ " ---\n" ++ "Verdict: " ++ "YTA" ++ "\n" ++
          "Score: " ++ toString (90 : Int) ++ "\n" ++ "Explanation: " ++ "eb" ++
          "\n") ++ post ∧
      pre = judgeHeaderPre ++ "sc" ++ judgeHeaderPost ++
        joinBlocks ([⟨"Alice", "NTA", 10, "ea"⟩, ⟨"Bob", "YTA", 90, "eb"⟩].take 1) :=
  judge_prompt_contains_opinions "sc" [⟨"Alice", "NTA", 10, "ea"⟩, ⟨"Bob", "YTA", 90, "eb"⟩]
    1 (by decide)

/-- C8: when the API is not configured (or the model is unavailable) or
the scenario text is empty, the submit handler terminates in the
corresponding reported-error/warning state: the outcome is the same for
every gateway and every decoder (so neither a persona call nor a judge
call can influence it — the gateway is never consulted), and it is
never a session, not even a partial one. -/
theorem precondition_blocks_gateway (api model : Bool) (scenario : String)
    (g1 g2 : String → Except String String)
    (l1 l2 : String → Except String JValue)
    (h : api = false ∨ scenario = "") :
    handleSubmit api model scenario g1 l1 = handleSubmit api model scenario g2 l2 ∧
      ∀ prs fin, handleSubmit api model scenario g1 l1 ≠ .session prs fin := by
  rcases h with h | h
  · subst h
    exact ⟨rfl, fun prs fin => by simp [handleSubmit]⟩
  · subst h
    cases api
    · exact ⟨rfl, fun prs fin => by simp [handleSubmit]⟩
    · cases model
      · exact ⟨rfl, fun prs fin => by simp [handleSubmit]⟩
      · exact ⟨rfl, fun prs fin => by simp [handleSubmit]⟩

/-- Witness for C8: with the API unconfigured, two different gateways
produce the same non-session outcome. -/
theorem precondition_blocks_gateway_witness :
    handleSubmit false true "sc" (fun _ => .error "netdown") (fun _ => .error "bad") =
      handleSubmit false true "sc" (fun _ => .ok "reply") okLoads ∧
    ∀ prs fin,
      handleSubmit false true "sc" (fun _ => .error "netdown") (fun _ => .error "bad") ≠
        .session prs fin :=
  precondition_blocks_gateway false true "sc" (fun _ => .error "netdown")
    (fun _ => .ok "reply") (fun _ => .error "bad") okLoads (Or.inl rfl)
